import Mathlib

/-!
Shallow embedding of the Flight SQL streaming-ingest core (`src/main.rs`).

The functional core is `do_put_statement_ingest` (main.rs lines 49-128):
peek at the first chunk of the request's `FlightData` stream, decode the
table schema from its header, attach a diagnostic counter to the stream,
derive the destination path from the ticket, build a `ParquetSink`, and
run the bulk write, returning the written row count cast `u64 -> i64`.

External collaborators (arrow-flight decoding, the DataFusion sink, URL
parsing) are not part of this repository; their behaviour, where a claim
depends on it, is modelled from the spec and marked as such, or left as a
function parameter of the embedding (`parseUrl`, `storeErr`).  Machine
integers are `Nat` with an explicit `% 2 ^ 64`, and the `as i64` cast at
main.rs:127 is `u64_as_i64`.  Panics (`expect`/`unwrap` in the source)
are an explicit outcome constructor, distinct from structured `Status`
errors returned to the caller.
-/

/-- A table schema: an ordered sequence of (column name, logical type) pairs. -/
structure Schema where
  columns : List (String × String)
deriving DecidableEq, Repr

/-- A decoded row batch: a columnar block of `numRows` rows under a schema. -/
structure RecordBatch where
  schema : Schema
  numRows : Nat
deriving DecidableEq, Repr

/-- Modelled from the spec: the decoded content of a `FlightData` header.  A
chunk carries either schema metadata (the first chunk), encoded row data, or
malformed bytes.  The flatbuffer byte level is abstracted to this semantic
alternative. -/
inductive DataHeader where
  | schemaMsg (s : Schema)
  | batchMsg (b : RecordBatch)
  | malformed (msg : String)
deriving DecidableEq, Repr

/-- One chunk of the ingest stream (arrow-flight `FlightData`), reduced to the
field the ingest path reads: `data_header`. -/
structure FlightData where
  data_header : DataHeader
deriving DecidableEq, Repr

/-- Error classes of the structured `tonic::Status` values the handler returns. -/
inductive StatusCode where
  | failedPrecondition
  | invalidArgument
  | internal
deriving DecidableEq, Repr

/-- A structured error returned to the caller (`tonic::Status`). -/
structure Status where
  code : StatusCode
  message : String
deriving DecidableEq, Repr

/-- Result of one ingest call: a row count (`Ok(rows as i64)`), a structured
error (`Err(Status)`), or a panic (`expect`/`unwrap` firing), which aborts the
handler without returning a structured error to the caller. -/
inductive IngestOutcome where
  | ok (rows : Int)
  | err (status : Status)
  | panicked (msg : String)
deriving DecidableEq, Repr

/-- True exactly when the outcome is a structured error result. -/
def IngestOutcome.isErrStatus : IngestOutcome → Bool
  | .err _ => true
  | _ => false

/-- The ticket type `CommandStatementIngest`: catalog and schema are optional
in the protobuf message; `table` is required. -/
structure CommandStatementIngest where
  catalog? : Option String
  schema? : Option String
  table : String
deriving DecidableEq, Repr

/-- Prost accessor `ticket.catalog()`: the catalog or the empty string. -/
def CommandStatementIngest.catalog (t : CommandStatementIngest) : String :=
  t.catalog?.getD ""

/-- Prost accessor `ticket.schema()`: the namespace or the empty string. -/
def CommandStatementIngest.schema (t : CommandStatementIngest) : String :=
  t.schema?.getD ""

/-- The destination path composed at main.rs:80-85 from the ticket's catalog,
namespace and table, with the fixed `.parquet` extension. -/
def destination_path (t : CommandStatementIngest) : String :=
  t.catalog ++ "/" ++ t.schema ++ "/" ++ t.table ++ ".parquet"

/-- Modelled from the spec: `try_schema_from_flatbuffer_bytes` decodes the
schema descriptor embedded in a chunk header, failing when the header does not
carry a schema message. -/
def try_schema_from_flatbuffer_bytes : DataHeader → Except String Schema
  | .schemaMsg s => .ok s
  | .batchMsg _ => .error ("Unable to get root as message")
  | .malformed m => .error m

/-- The `futures` `scan` stream combinator: threads a state through the
elements; emitting `none` ends the stream early. -/
def streamScan (f : σ → α → σ × Option β) : σ → List α → List β
  | _, [] => []
  | st, a :: rest =>
    match f st a with
    | (st2, some b) => b :: streamScan f st2 rest
    | (_, none) => []

/-- The diagnostic wrapper of main.rs:74-78: a `scan` with a counter starting
at 0 that logs each chunk's sequence position and passes every chunk through
(`ready(Some(fd))`). -/
def logScan (stream : List α) : List α :=
  streamScan (fun n fd => (n + 1, some fd)) 0 stream

/-- The chunk sequence handed to the Batch Reconstructor: the scanned stream.
Because `peek` does not consume, it still begins with the inspected chunk. -/
def downstream_stream (stream : List (Except String FlightData)) :
    List (Except String FlightData) :=
  logScan stream

/-- The `PeekableFlightDataStream::peek` operation: inspect the next chunk
without consuming it; `none` when the stream is exhausted. -/
def PeekableStream.peek (stream : List α) : Option α :=
  stream.head?

/-- Modelled from the spec: batch decoding once the stream schema `s` is known.
Each data chunk decodes to a row batch validated against `s`; a transport
error, malformed chunk, or schema mismatch fails the sequence at that element. -/
def decodeBatchesWith (s : Schema) :
    List (Except String FlightData) → Except String (List RecordBatch)
  | [] => .ok []
  | .error e :: _ => .error e
  | .ok fd :: rest =>
    match fd.data_header with
    | .schemaMsg _ => decodeBatchesWith s rest
    | .batchMsg b =>
      if b.schema = s then (decodeBatchesWith s rest).map (b :: ·)
      else .error ("schema mismatch")
    | .malformed m => .error m

/-- Modelled from the spec: `FlightRecordBatchStream::new_from_flight_data`
(the Batch Reconstructor) — the first chunk must carry the schema, and the
following chunks decode to the lazy sequence of row batches; viewed after full
consumption as either all batches or the first error. -/
def FlightRecordBatchStream.new_from_flight_data
    (stream : List (Except String FlightData)) : Except String (List RecordBatch) :=
  match stream with
  | [] => .error ("stream ended before schema")
  | .error e :: _ => .error e
  | .ok fd :: rest =>
    match fd.data_header with
    | .schemaMsg s => decodeBatchesWith s rest
    | _ => .error ("missing schema message")

/-- DataFusion `InsertOp`. -/
inductive InsertOp where
  | append
  | overwrite
  | replace
deriving DecidableEq, Repr

/-- The sink's parquet table options, reduced to the field the claims are
about: the compression codec, `none` meaning the library default codec. -/
structure TableParquetOptions where
  compression : Option String
deriving DecidableEq, Repr

/-- Modelled from the spec: Rust's `Default::default()` for
`TableParquetOptions` (main.rs:100) — the library default options, which carry
no session-derived compression setting. -/
def TableParquetOptions.default : TableParquetOptions :=
  { compression := none }

/-- The `FileSinkConfig` built for the write at main.rs:90-99. -/
structure FileSinkConfig where
  object_store_url : String
  file_groups : List String
  table_paths : List String
  output_schema : Schema
  table_partition_cols : List String
  insert_op : InsertOp
  keep_partition_by_columns : Bool
  file_extension : String
deriving DecidableEq, Repr

/-- The parquet sink: its file configuration and its parquet options. -/
structure ParquetSink where
  config : FileSinkConfig
  parquet_options : TableParquetOptions
deriving DecidableEq, Repr

/-- Constructor `ParquetSink::new(config, table_options)` (main.rs:101). -/
def ParquetSink.new (config : FileSinkConfig) (opts : TableParquetOptions) :
    ParquetSink :=
  ⟨config, opts⟩

/-- Total rows across a batch list. -/
def totalRows (bs : List RecordBatch) : Nat :=
  (bs.map RecordBatch.numRows).sum

/-- Modelled from the spec: `ParquetSink::write_all` — the Sink Writer consumes
the entire batch sequence and returns the total row count written as a `u64`;
any decode error in the sequence or storage failure (`storeErr`) aborts the
write with an error. -/
def ParquetSink.write_all (_sink : ParquetSink)
    (batches : Except String (List RecordBatch)) (storeErr : Option String) :
    Except String Nat :=
  match batches with
  | .error e => .error e
  | .ok bs =>
    match storeErr with
    | some e => .error e
    | none => .ok (totalRows bs % 2 ^ 64)

/-- The `rows_written as i64` cast at main.rs:127 — reinterpret a `u64` value
as a two's-complement `i64`. -/
def u64_as_i64 (n : Nat) : Int :=
  if n % 2 ^ 64 < 2 ^ 63 then ((n % 2 ^ 64 : Nat) : Int)
  else ((n % 2 ^ 64 : Nat) : Int) - 2 ^ 64

/-- The session configuration: an ordered list of string settings. -/
structure SessionConfig where
  settings : List (String × String)
deriving DecidableEq, Repr

/-- Constructor `SessionConfig::new()`. -/
def SessionConfig.new : SessionConfig :=
  ⟨[]⟩

/-- Setter `SessionConfig::set_str(key, value)`. -/
def SessionConfig.set_str (c : SessionConfig) (k v : String) : SessionConfig :=
  ⟨c.settings ++ [(k, v)]⟩

/-- Look up a setting by key. -/
def SessionConfig.get (c : SessionConfig) (k : String) : Option String :=
  (c.settings.find? (fun kv => kv.1 == k)).map (fun kv => kv.2)

/-- The session configuration built in `main` at main.rs:156-157, carrying the
zstd level-19 parquet compression setting. -/
def mainSessionConfig : SessionConfig :=
  SessionConfig.set_str SessionConfig.new
    ("datafusion.execution.parquet.compression") ("zstd(19)")

/-- The observable result of one ingest call: the outcome returned (or the
panic that aborted it) together with the sink invocation that performed
durable I/O, `none` when the handler failed before any write was attempted. -/
structure IngestTrace where
  outcome : IngestOutcome
  write_call : Option ParquetSink
deriving DecidableEq, Repr

/-- The ingest handler `do_put_statement_ingest` (main.rs:49-128), with the
external collaborators as parameters: `parseUrl` is `ListingTableUrl::parse`
applied to the composed path, and `storeErr` abstracts the storage backend
during the bulk write (`none` = reachable and healthy).  Steps, in source
order: peek the first chunk (`expect` panics on an exhausted stream; a
transport error becomes a failed-precondition status), decode the schema from
its header (failure becomes an invalid-argument status), compose and parse the
destination path (failure becomes an internal status, before any I/O), then
build the sink with `Default` table options and run the write, whose `Err` is
`unwrap`ped (a panic) and whose `Ok` row count is returned cast to `i64`. -/
def do_put_statement_ingest (parseUrl : String → Except String Unit)
    (storeErr : Option String) (ticket : CommandStatementIngest)
    (stream : List (Except String FlightData)) : IngestTrace :=
  match PeekableStream.peek stream with
  | none =>
    { outcome := .panicked ("first flight data available at this point"),
      write_call := none }
  | some (.error e) =>
    { outcome := .err ⟨.failedPrecondition, "Failed to read FlightData: " ++ e⟩,
      write_call := none }
  | some (.ok first_flight_data) =>
    match try_schema_from_flatbuffer_bytes first_flight_data.data_header with
    | .error e =>
      { outcome := .err ⟨.invalidArgument, "Missing schema in first message: " ++ e⟩,
        write_call := none }
    | .ok schema =>
      let path := destination_path ticket
      match parseUrl ("/" ++ path) with
      | .error e =>
        { outcome := .err ⟨.internal, "invalid table url " ++ path ++ ": " ++ e⟩,
          write_call := none }
      | .ok _ =>
        let file_sink_config : FileSinkConfig :=
          { object_store_url := "file:///",
            file_groups := [],
            table_paths := ["/" ++ path],
            output_schema := schema,
            table_partition_cols := [],
            insert_op := .overwrite,
            keep_partition_by_columns := false,
            file_extension := "parquet" }
        let data_sink := ParquetSink.new file_sink_config TableParquetOptions.default
        let record_batch_stream :=
          FlightRecordBatchStream.new_from_flight_data (downstream_stream stream)
        match data_sink.write_all record_batch_stream storeErr with
        | .error e =>
          { outcome := .panicked ("unwrap on Err: " ++ e),
            write_call := some data_sink }
        | .ok rows_written =>
          { outcome := .ok (u64_as_i64 rows_written),
            write_call := some data_sink }

/-- Modelled from the spec: the Isolation Boundary (`dedicated_executor`
module, enabled by the `dedicated-executor` feature; the module is not under
`src/`).  Dispatching a job to the separate worker pool and awaiting it
returns the job's result unchanged — a scheduling policy, not a change of
behaviour. -/
def DedicatedExecutor.spawn (job : α) : α :=
  job

/-- The `dedicated-executor` variant of the handler (main.rs:114-119): the
only difference from the inline variant is that the bulk write runs through
`DedicatedExecutor.spawn` before its result is `unwrap`ped. -/
def do_put_statement_ingest_dedicated (parseUrl : String → Except String Unit)
    (storeErr : Option String) (ticket : CommandStatementIngest)
    (stream : List (Except String FlightData)) : IngestTrace :=
  match PeekableStream.peek stream with
  | none =>
    { outcome := .panicked ("first flight data available at this point"),
      write_call := none }
  | some (.error e) =>
    { outcome := .err ⟨.failedPrecondition, "Failed to read FlightData: " ++ e⟩,
      write_call := none }
  | some (.ok first_flight_data) =>
    match try_schema_from_flatbuffer_bytes first_flight_data.data_header with
    | .error e =>
      { outcome := .err ⟨.invalidArgument, "Missing schema in first message: " ++ e⟩,
        write_call := none }
    | .ok schema =>
      let path := destination_path ticket
      match parseUrl ("/" ++ path) with
      | .error e =>
        { outcome := .err ⟨.internal, "invalid table url " ++ path ++ ": " ++ e⟩,
          write_call := none }
      | .ok _ =>
        let file_sink_config : FileSinkConfig :=
          { object_store_url := "file:///",
            file_groups := [],
            table_paths := ["/" ++ path],
            output_schema := schema,
            table_partition_cols := [],
            insert_op := .overwrite,
            keep_partition_by_columns := false,
            file_extension := "parquet" }
        let data_sink := ParquetSink.new file_sink_config TableParquetOptions.default
        let record_batch_stream :=
          FlightRecordBatchStream.new_from_flight_data (downstream_stream stream)
        match DedicatedExecutor.spawn (data_sink.write_all record_batch_stream storeErr) with
        | .error e =>
          { outcome := .panicked ("unwrap on Err: " ++ e),
            write_call := some data_sink }
        | .ok rows_written =>
          { outcome := .ok (u64_as_i64 rows_written),
            write_call := some data_sink }

/-- A well-formed chunk stream: a schema chunk followed by the given batches,
each as a data chunk. -/
def wellFormedStream (s : Schema) (bs : List RecordBatch) :
    List (Except String FlightData) :=
  .ok ⟨.schemaMsg s⟩ :: bs.map (fun b => .ok ⟨.batchMsg b⟩)

/-- A URL parser that accepts every path (the behaviour of
`ListingTableUrl::parse` on ordinary path-safe names). -/
def parseOkAll : String → Except String Unit :=
  fun _ => .ok ()

/-- A URL parser that rejects the composed path, as `ListingTableUrl::parse`
does on a path-breaking composition. -/
def parseRejectAll : String → Except String Unit :=
  fun _ => .error ("relative URL without a base")

/-- The ticket of the spec's worked scenario: catalog `lake`, namespace
`sales`, table `orders`. -/
def ticketLakeSalesOrders : CommandStatementIngest :=
  { catalog? := some "lake", schema? := some "sales", table := "orders" }

/-- The schema of the spec's worked scenario. -/
def schemaIdName : Schema :=
  { columns := [("id", "int64"), ("name", "string")] }

/-- The batches of the spec's worked scenario: 10 and 15 rows. -/
def batchesScenario : List RecordBatch :=
  [{ schema := schemaIdName, numRows := 10 }, { schema := schemaIdName, numRows := 15 }]

/-- The chunk stream of the spec's worked scenario: a schema chunk followed by
batches of 10 and 15 rows. -/
def streamScenario : List (Except String FlightData) :=
  wellFormedStream schemaIdName batchesScenario

/-- A well-formed stream whose single batch claims `2 ^ 63` rows. -/
def streamHuge : List (Except String FlightData) :=
  wellFormedStream schemaIdName [{ schema := schemaIdName, numRows := 2 ^ 63 }]

/-- The counter-carrying scan emits every element unchanged, for any start
value of the counter. -/
theorem streamScan_counter_eq (l : List α) : ∀ n : Nat,
    streamScan (fun k fd => (k + 1, some fd)) n l = l := by
  induction l with
  | nil => intro n; rfl
  | cons a rest ih => intro n; simp [streamScan, ih]

/-- The diagnostic wrapper is the identity on the chunk sequence. -/
theorem logScan_eq (l : List α) : logScan l = l :=
  streamScan_counter_eq l 0

/-- The sequence handed to the Batch Reconstructor is the original stream. -/
theorem downstream_stream_eq (s : List (Except String FlightData)) :
    downstream_stream s = s :=
  logScan_eq s

/-- Decoding a sequence of data chunks whose batches all match the stream
schema yields exactly those batches. -/
theorem decodeBatchesWith_map (s : Schema) (bs : List RecordBatch)
    (h : ∀ b ∈ bs, b.schema = s) :
    decodeBatchesWith s (bs.map (fun b => .ok ⟨.batchMsg b⟩)) = .ok bs := by
  induction bs with
  | nil => rfl
  | cons b rest ih =>
    have hb : b.schema = s := h b (by simp)
    have hr := ih (fun x hx => h x (by simp [hx]))
    simp [decodeBatchesWith, hb, hr, Except.map]

/-- Characterisation of a successful ingest run on a well-formed stream: the
outcome is the cast row total and the write call carries the sink built from
the resolved path, the stream schema, overwrite semantics, the parquet
extension and the default table options. -/
theorem ingest_wellformed (parseUrl : String → Except String Unit)
    (ticket : CommandStatementIngest) (s : Schema) (bs : List RecordBatch)
    (hschema : ∀ b ∈ bs, b.schema = s)
    (hparse : parseUrl ("/" ++ destination_path ticket) = .ok ()) :
    do_put_statement_ingest parseUrl none ticket (wellFormedStream s bs) =
      { outcome := .ok (u64_as_i64 (totalRows bs % 2 ^ 64)),
        write_call := some (ParquetSink.new
          { object_store_url := "file:///",
            file_groups := [],
            table_paths := ["/" ++ destination_path ticket],
            output_schema := s,
            table_partition_cols := [],
            insert_op := .overwrite,
            keep_partition_by_columns := false,
            file_extension := "parquet" } TableParquetOptions.default) } := by
  unfold do_put_statement_ingest
  simp [wellFormedStream, PeekableStream.peek, try_schema_from_flatbuffer_bytes,
        hparse, downstream_stream_eq, FlightRecordBatchStream.new_from_flight_data,
        decodeBatchesWith_map s bs hschema, ParquetSink.write_all, logScan_eq]

/-- Claim C9: the diagnostic sequence-position wrapper yields exactly the same
chunks in exactly the same order as the underlying stream — it never drops,
reorders, duplicates, or terminates the sequence early, so the sequence the
ingest pipeline consumes is the original stream itself. -/
theorem c9_scan_wrapper_is_identity (stream : List (Except String FlightData)) :
    logScan stream = stream :=
  logScan_eq stream

/-- Claim C6: the Schema Extractor's `peek` of the first chunk does not
consume it — the sequence handed to the Batch Reconstructor is the entire
original stream unchanged, and its first chunk is exactly the chunk that was
peeked at. -/
theorem c6_peek_does_not_consume (stream : List (Except String FlightData)) :
    downstream_stream stream = stream ∧
    (downstream_stream stream).head? = PeekableStream.peek stream := by
  refine ⟨downstream_stream_eq stream, ?_⟩
  rw [downstream_stream_eq]
  rfl

/-- Claim C4: for every (catalog, namespace, table) triple the Destination
Resolver produces exactly `catalog/namespace/table.parquet` — being a function
of the triple it is deterministic — and the scenario triple (lake, sales,
orders) yields `lake/sales/orders.parquet`. -/
theorem c4_destination_path_format (c ns t : String) :
    destination_path { catalog? := some c, schema? := some ns, table := t } =
      c ++ "/" ++ ns ++ "/" ++ t ++ ".parquet" ∧
    destination_path ticketLakeSalesOrders = "lake/sales/orders.parquet" := by
  constructor
  · simp [destination_path, CommandStatementIngest.catalog, CommandStatementIngest.schema]
  · rfl

/-- Claim C7: for every input, the dedicated-executor variant of the handler
(write dispatched through the Isolation Boundary) returns the same result as
the inline variant — the two execution strategies are behaviourally
equivalent. -/
theorem c7_dedicated_executor_equivalent (parseUrl : String → Except String Unit)
    (storeErr : Option String) (ticket : CommandStatementIngest)
    (stream : List (Except String FlightData)) :
    do_put_statement_ingest_dedicated parseUrl storeErr ticket stream =
      do_put_statement_ingest parseUrl storeErr ticket stream :=
  rfl

/-- Claim C2 counterexample: on the chunk stream with zero chunks the handler
aborts with the panic of the violated peek expectation; the result is not a
structured error result of any class, though indeed no write call is made. -/
theorem c2_counterexample :
    (do_put_statement_ingest parseOkAll none ticketLakeSalesOrders []).outcome =
      .panicked ("first flight data available at this point") ∧
    ((do_put_statement_ingest parseOkAll none ticketLakeSalesOrders []).outcome).isErrStatus
      = false ∧
    (do_put_statement_ingest parseOkAll none ticketLakeSalesOrders []).write_call = none :=
  ⟨rfl, rfl, rfl⟩

/-- Claim C2 (amended): for the chunk stream with zero chunks, the ingest
operation aborts with the panic `first flight data available at this point`
(the stream contract violated upstream is treated as an implementation
invariant, not a recoverable error), and no file write is attempted; no
structured error is returned to the caller. -/
theorem c2_empty_stream_panics (parseUrl : String → Except String Unit)
    (storeErr : Option String) (ticket : CommandStatementIngest) :
    do_put_statement_ingest parseUrl storeErr ticket [] =
      { outcome := .panicked ("first flight data available at this point"),
        write_call := none } :=
  rfl

/-- Claim C10: the handler returns the u64 row count cast to i64
(`rows_written as i64`, main.rs:127): every count up to 2 ^ 63 - 1 is returned
exactly, while a u64 count exceeding 2 ^ 63 - 1 is reinterpreted modulo 2 ^ 64
as a negative value rather than rejected. -/
theorem c10_u64_cast_to_i64 (n : Nat) (h : n < 2 ^ 64) :
    (n ≤ 2 ^ 63 - 1 → u64_as_i64 n = (n : Int)) ∧
    (2 ^ 63 - 1 < n → u64_as_i64 n = (n : Int) - 2 ^ 64 ∧ u64_as_i64 n < 0) := by
  unfold u64_as_i64
  rw [Nat.mod_eq_of_lt h]
  refine ⟨fun hle => ?_, fun hgt => ?_⟩
  · rw [if_pos (by omega)]
  · rw [if_neg (by omega)]
    refine ⟨rfl, ?_⟩
    have hn : (n : Int) < 2 ^ 64 := by exact_mod_cast h
    omega

/-- Witness for C10 at the concrete count 2 ^ 63. -/
theorem c10_witness :
    ((2 : Nat) ^ 63 < 2 ^ 64) ∧
    (((2 : Nat) ^ 63 ≤ 2 ^ 63 - 1 → u64_as_i64 (2 ^ 63) = (((2 : Nat) ^ 63 : Nat) : Int)) ∧
     ((2 : Nat) ^ 63 - 1 < 2 ^ 63 →
       u64_as_i64 (2 ^ 63) = (((2 : Nat) ^ 63 : Nat) : Int) - 2 ^ 64 ∧
       u64_as_i64 (2 ^ 63) < 0)) :=
  ⟨by norm_num, c10_u64_cast_to_i64 (2 ^ 63) (by norm_num)⟩

/-- Claim C1 counterexample: a well-formed stream whose single batch carries
2 ^ 63 rows is answered with the negative value -(2 ^ 63) — the `as i64` cast
of the u64 count — not with the row total 2 ^ 63. -/
theorem c1_counterexample :
    (do_put_statement_ingest parseOkAll none ticketLakeSalesOrders streamHuge).outcome =
      .ok (-(2 ^ 63)) ∧
    (-(2 ^ 63) : Int) ≠ ((2 : Int) ^ 63) := by
  constructor
  · decide
  · decide

/-- Claim C1 (amended): for every well-formed chunk stream whose first chunk
carries a valid schema and whose batch rows total at most 2 ^ 63 - 1, the
integer returned equals the total number of rows across all batches following
the schema chunk; the u64 count is cast to i64 at main.rs:127, so a larger
total would wrap to a negative value instead. -/
theorem c1_rowcount_eq_sum (parseUrl : String → Except String Unit)
    (ticket : CommandStatementIngest) (s : Schema) (bs : List RecordBatch)
    (hschema : ∀ b ∈ bs, b.schema = s)
    (hparse : parseUrl ("/" ++ destination_path ticket) = .ok ())
    (hsum : totalRows bs ≤ 2 ^ 63 - 1) :
    (do_put_statement_ingest parseUrl none ticket (wellFormedStream s bs)).outcome =
      .ok (totalRows bs) := by
  rw [ingest_wellformed parseUrl ticket s bs hschema hparse]
  have h64 : totalRows bs % 2 ^ 64 = totalRows bs := Nat.mod_eq_of_lt (by omega)
  simp only [u64_as_i64, h64]
  rw [if_pos (by omega)]

/-- Witness for C1 on the spec's worked scenario: batches of 10 and 15 rows
yield the returned count 25. -/
theorem c1_witness :
    ((∀ b ∈ batchesScenario, b.schema = schemaIdName) ∧
     parseOkAll ("/" ++ destination_path ticketLakeSalesOrders) = .ok () ∧
     totalRows batchesScenario ≤ 2 ^ 63 - 1) ∧
    (do_put_statement_ingest parseOkAll none ticketLakeSalesOrders
        (wellFormedStream schemaIdName batchesScenario)).outcome =
      .ok (totalRows batchesScenario) :=
  ⟨⟨by decide, rfl, by decide⟩,
   c1_rowcount_eq_sum parseOkAll ticketLakeSalesOrders schemaIdName batchesScenario
     (by decide) rfl (by decide)⟩

/-- Claim C3 counterexample: with the storage backend unreachable during the
bulk write, the handler aborts through the `unwrap` panic on the write result;
no structured error result is produced for the caller. -/
theorem c3_counterexample :
    (do_put_statement_ingest parseOkAll (some ("storage unreachable"))
        ticketLakeSalesOrders streamScenario).outcome =
      .panicked ("unwrap on Err: storage unreachable") ∧
    ((do_put_statement_ingest parseOkAll (some ("storage unreachable"))
        ticketLakeSalesOrders streamScenario).outcome).isErrStatus = false := by
  constructor
  · decide
  · decide

/-- Claim C3 (amended): every failing bulk write — storage unreachable,
encoding failure, or decode failure mid-stream — aborts the whole ingest with
no retry and is never silently swallowed, but it surfaces as a panic of the
`unwrap`ped write result (main.rs:117/121), not as a structured error result
with diagnostic context returned to the caller. -/
theorem c3_write_failure_panics (parseUrl : String → Except String Unit)
    (storeErr : Option String) (ticket : CommandStatementIngest)
    (hd : FlightData) (rest : List (Except String FlightData)) (s : Schema) (e : String)
    (hschema : hd.data_header = .schemaMsg s)
    (hparse : parseUrl ("/" ++ destination_path ticket) = .ok ())
    (hwrite : ∀ sink : ParquetSink,
      sink.write_all
        (FlightRecordBatchStream.new_from_flight_data (downstream_stream (.ok hd :: rest)))
        storeErr = .error e) :
    (do_put_statement_ingest parseUrl storeErr ticket (.ok hd :: rest)).outcome =
      .panicked ("unwrap on Err: " ++ e) ∧
    ((do_put_statement_ingest parseUrl storeErr ticket (.ok hd :: rest)).outcome).isErrStatus
      = false := by
  unfold do_put_statement_ingest
  simp [PeekableStream.peek, hschema, try_schema_from_flatbuffer_bytes, hparse, hwrite,
        IngestOutcome.isErrStatus]

/-- Witness for C3 at a concrete stream and an unreachable store. -/
theorem c3_witness :
    ((⟨.schemaMsg schemaIdName⟩ : FlightData).data_header = .schemaMsg schemaIdName ∧
     parseOkAll ("/" ++ destination_path ticketLakeSalesOrders) = .ok () ∧
     ∀ sink : ParquetSink,
       sink.write_all
         (FlightRecordBatchStream.new_from_flight_data
           (downstream_stream (.ok ⟨.schemaMsg schemaIdName⟩ :: [])))
         (some ("storage unreachable")) = .error ("storage unreachable")) ∧
    ((do_put_statement_ingest parseOkAll (some ("storage unreachable"))
        ticketLakeSalesOrders (.ok ⟨.schemaMsg schemaIdName⟩ :: [])).outcome =
      .panicked ("unwrap on Err: " ++ "storage unreachable") ∧
     ((do_put_statement_ingest parseOkAll (some ("storage unreachable"))
        ticketLakeSalesOrders (.ok ⟨.schemaMsg schemaIdName⟩ :: [])).outcome).isErrStatus
      = false) :=
  ⟨⟨rfl, rfl, fun _ => rfl⟩,
   c3_write_failure_panics parseOkAll (some ("storage unreachable")) ticketLakeSalesOrders
     ⟨.schemaMsg schemaIdName⟩ [] schemaIdName ("storage unreachable") rfl rfl
     (fun _ => rfl)⟩

/-- Claim C8: when the composed destination path fails to parse, the handler
returns an internal-class structured error whose message carries the offending
path and the underlying parse error, and no write call is made — the failure
precedes any I/O against the storage backend. -/
theorem c8_malformed_path_internal_error (parseUrl : String → Except String Unit)
    (storeErr : Option String) (ticket : CommandStatementIngest)
    (hd : FlightData) (rest : List (Except String FlightData)) (s : Schema) (e : String)
    (hschema : hd.data_header = .schemaMsg s)
    (hparse : parseUrl ("/" ++ destination_path ticket) = .error e) :
    do_put_statement_ingest parseUrl storeErr ticket (.ok hd :: rest) =
      { outcome := .err ⟨.internal,
          "invalid table url " ++ destination_path ticket ++ ": " ++ e⟩,
        write_call := none } := by
  unfold do_put_statement_ingest
  simp [PeekableStream.peek, hschema, try_schema_from_flatbuffer_bytes, hparse]

/-- Witness for C8 at a concrete rejecting parser. -/
theorem c8_witness :
    ((⟨.schemaMsg schemaIdName⟩ : FlightData).data_header = .schemaMsg schemaIdName ∧
     parseRejectAll ("/" ++ destination_path ticketLakeSalesOrders) =
       .error ("relative URL without a base")) ∧
    do_put_statement_ingest parseRejectAll none ticketLakeSalesOrders
        (.ok ⟨.schemaMsg schemaIdName⟩ :: []) =
      { outcome := .err ⟨.internal,
          "invalid table url " ++ destination_path ticketLakeSalesOrders ++ ": " ++
            "relative URL without a base"⟩,
        write_call := none } :=
  ⟨⟨rfl, rfl⟩,
   c8_malformed_path_internal_error parseRejectAll none ticketLakeSalesOrders
     ⟨.schemaMsg schemaIdName⟩ [] schemaIdName ("relative URL without a base") rfl rfl⟩

/-- The sink invoked by the spec's worked scenario run. -/
def sinkScenario : ParquetSink :=
  ParquetSink.new
    { object_store_url := "file:///",
      file_groups := [],
      table_paths := ["/" ++ destination_path ticketLakeSalesOrders],
      output_schema := schemaIdName,
      table_partition_cols := [],
      insert_op := .overwrite,
      keep_partition_by_columns := false,
      file_extension := "parquet" } TableParquetOptions.default

/-- Claim C5 (code bug): every sink the handler ever invokes carries the
default table options, whose compression is not the zstd level-19 codec — the
zstd(19) setting lives only in the session configuration built in `main`
(main.rs:156-157), which the directly constructed `ParquetSink` (main.rs:100-101)
never reads, so the committed file is not encoded under that setting. -/
theorem c5_sink_options_not_zstd19 (parseUrl : String → Except String Unit)
    (storeErr : Option String) (ticket : CommandStatementIngest)
    (stream : List (Except String FlightData)) (sink : ParquetSink)
    (h : (do_put_statement_ingest parseUrl storeErr ticket stream).write_call = some sink) :
    sink.parquet_options = TableParquetOptions.default ∧
    sink.parquet_options.compression ≠ some ("zstd(19)") ∧
    SessionConfig.get mainSessionConfig ("datafusion.execution.parquet.compression") =
      some ("zstd(19)") := by
  have hopts : sink.parquet_options = TableParquetOptions.default := by
    rcases stream with _ | ⟨fst, rest⟩
    · simp [do_put_statement_ingest, PeekableStream.peek] at h
    · rcases fst with e | fd
      · simp [do_put_statement_ingest, PeekableStream.peek] at h
      · rcases hd : fd.data_header with s2 | b | m
        · rcases hp : parseUrl ("/" ++ destination_path ticket) with e | u
          · simp [do_put_statement_ingest, PeekableStream.peek,
                  try_schema_from_flatbuffer_bytes, hd, hp] at h
          · rcases hb : FlightRecordBatchStream.new_from_flight_data
                (downstream_stream (Except.ok fd :: rest)) with e | bs
            · simp [do_put_statement_ingest, PeekableStream.peek,
                    try_schema_from_flatbuffer_bytes, hd, hp, hb,
                    ParquetSink.write_all, ParquetSink.new] at h
              rw [← h]
            · rcases storeErr with _ | e
              · simp [do_put_statement_ingest, PeekableStream.peek,
                      try_schema_from_flatbuffer_bytes, hd, hp, hb,
                      ParquetSink.write_all, ParquetSink.new] at h
                rw [← h]
              · simp [do_put_statement_ingest, PeekableStream.peek,
                      try_schema_from_flatbuffer_bytes, hd, hp, hb,
                      ParquetSink.write_all, ParquetSink.new] at h
                rw [← h]
        · simp [do_put_statement_ingest, PeekableStream.peek,
                try_schema_from_flatbuffer_bytes, hd] at h
        · simp [do_put_statement_ingest, PeekableStream.peek,
                try_schema_from_flatbuffer_bytes, hd] at h
  refine ⟨hopts, ?_, ?_⟩
  · rw [hopts]
    simp [TableParquetOptions.default]
  · rfl

/-- Witness for C5: the scenario run invokes the sink with the default table
options while the session configuration carries the zstd(19) setting. -/
theorem c5_witness :
    (do_put_statement_ingest parseOkAll none ticketLakeSalesOrders streamScenario).write_call
      = some sinkScenario ∧
    (sinkScenario.parquet_options = TableParquetOptions.default ∧
     sinkScenario.parquet_options.compression ≠ some ("zstd(19)") ∧
     SessionConfig.get mainSessionConfig ("datafusion.execution.parquet.compression") =
       some ("zstd(19)")) :=
  ⟨by decide, c5_sink_options_not_zstd19 parseOkAll none ticketLakeSalesOrders
    streamScenario sinkScenario (by decide)⟩
